import Mathlib

/-!
Verification development for the LoopMaker backend (`backend/main.py`).

The Python backend orchestrates music-generation jobs: it validates requests,
resolves generation parameters (seed, step count, batch size, duration,
caption), runs a synchronous compute worker on a thread pool with cooperative
cancellation checkpoints and progress callbacks, post-processes audio buffers
(peak normalization + 16-bit quantization), and streams progress/terminal
messages to clients over a WebSocket (or answers a single-shot HTTP request).

This file shallowly embeds those parts of `backend/main.py`:
* machine integers are modelled as `Int`/`Nat` (Python ints are unbounded);
* Python floats are modelled as `ℚ` (exact arithmetic);
* the filesystem, `os.urandom`, the model handler and the cancellation
  `threading.Event` are modelled by an explicit environment record `Env`;
* the worker `_generate_acestep_sync` is modelled as a function producing a
  trace of observable actions plus an `Except` outcome, mirroring the Python
  control flow (including which code is inside the `try/finally`);
* the WebSocket handler `ws_generate` is modelled by its validation function
  and by the message sequence its forward/drain/terminal structure produces.
-/

namespace LoopMaker

/-- Model registry entry, from `ModelInfo` in `backend/main.py` (lines 74-80). -/
structure ModelInfo where
  hf_name : String
  size_gb : ℚ
  min_ram_gb : Nat
  max_duration : Nat
  supports_lyrics : Bool
deriving DecidableEq, Repr

/-- MODEL_REGISTRY from `backend/main.py` lines 83-85: a single ACE-Step entry. -/
def MODEL_REGISTRY : List (String × ModelInfo) :=
  [("acestep", { hf_name := "ACE-Step/acestep-v15-turbo", size_gb := 5,
                 min_ram_gb := 8, max_duration := 240, supports_lyrics := true })]

/-- MODEL_REGISTRY.get(model): dictionary lookup used at lines 345 and 616. -/
def registryFind (m : String) : Option ModelInfo :=
  (MODEL_REGISTRY.find? (fun p => p.1 = m)).map Prod.snd

/-- GenerationRequest pydantic model, `backend/main.py` lines 109-126.
Python ints are `Int`, floats are `ℚ`, `Optional` fields are `Option`. -/
structure GenerationRequest where
  prompt : String
  duration : Int
  model : String
  seed : Option Int
  lyrics : Option String
  quality_mode : String
  guidance_scale : ℚ
  task_type : String
  source_audio_path : Option String
  ref_audio_strength : ℚ
  repainting_start : Option ℚ
  repainting_end : Option ℚ
  batch_size : Int
  bpm : Option Int
  music_key : Option String
  time_signature : Option String
deriving DecidableEq, Repr

/-- A request with every optional field at its pydantic default
(`backend/main.py` lines 109-126). -/
def defaultRequest : GenerationRequest :=
  { prompt := "", duration := 30, model := "acestep", seed := none, lyrics := none,
    quality_mode := "fast", guidance_scale := 7, task_type := "text2music",
    source_audio_path := none, ref_audio_strength := 1/2,
    repainting_start := none, repainting_end := none, batch_size := 1,
    bpm := none, music_key := none, time_signature := none }

/-- GenerationResponse, `backend/main.py` lines 129-133. -/
structure GenerationResponse where
  audio_path : String
  sample_rate : Nat
  duration : ℚ
  seed : Option Int
deriving DecidableEq, Repr

/-- Python truthiness of an `Optional[str]`: `None` and the empty string are
falsy. The backend tests `if request.source_audio_path:` and similar. -/
def strTruthy : Option String → Bool
  | none => false
  | some s => s ≠ ""

/-- The source-audio path as a plain string (only consulted when
`strTruthy` holds, in which case the option is a nonempty string). -/
def srcPath (req : GenerationRequest) : String :=
  req.source_audio_path.getD ""

/-- Quality-mode to inference-step mapping, `backend/main.py` lines 391-397:
"draft" gives 4, "quality" gives 50, anything else (the "fast" default
included) gives 8. -/
def qualitySteps (q : String) : Nat :=
  if q = "draft" then 4
  else if q = "quality" then 50
  else 8

/-- Batch-size clamping, line 428: `max(1, min(request.batch_size, 8))`. -/
def clampBatch (b : Int) : Int :=
  max 1 (min b 8)

/-- Seed masking, lines 430 and 432: Python's `s & 0x7FFFFFFF`. For every
Python int `s` (negative included, via two's complement), `s & (2^31 - 1)`
equals `s mod 2^31` with a nonnegative result, which is `Int.emod` here. -/
def maskSeed (s : Int) : Int :=
  s % (2 ^ 31)

/-- Effective-seed resolution, lines 429-432: an explicit seed is masked;
an absent seed masks `int.from_bytes(os.urandom(4), "big")`, modelled by
the environment-supplied draw `urandom4`. -/
def resolveSeed (seed : Option Int) (urandom4 : Nat) : Int :=
  match seed with
  | some s => maskSeed s
  | none => maskSeed (Int.ofNat urandom4)

/-- Effective duration, lines 414-426: repaint with an end time overrides the
requested duration; cover with duration 0 and a (truthy) source path infers
the duration from the WAV header (`len(audio)/sr`), falling back to 30.0 when
reading raises. `wavRead p` models `scipy.io.wavfile.read` returning
`(sample_rate, num_samples)`, `none` when it raises. -/
def resolveDuration (req : GenerationRequest) (wavRead : String → Option (Nat × Nat)) : ℚ :=
  let d0 : ℚ :=
    if req.task_type = "repaint" then
      match req.repainting_end with
      | some e => e
      | none => (req.duration : ℚ)
    else (req.duration : ℚ)
  if req.task_type = "cover" ∧ d0 = 0 ∧ strTruthy req.source_audio_path = true then
    match wavRead (srcPath req) with
    | some (sr, n) => (n : ℚ) / (sr : ℚ)
    | none => 30
  else d0

/-- Caption enrichment, lines 434-443: metadata tags joined by ", " and
prepended to the prompt as "<tags>. <prompt>" when any tag is present.
`music_key` and `time_signature` are tested for Python truthiness
(`if request.music_key:`), `bpm` with `is not None`. -/
def buildCaption (req : GenerationRequest) : String :=
  let parts : List String :=
    (match req.bpm with
     | some b => ["BPM: " ++ toString b]
     | none => []) ++
    (match req.music_key with
     | some k => if k = "" then [] else ["Key: " ++ k]
     | none => []) ++
    (match req.time_signature with
     | some t => if t = "" then [] else ["Time Signature: " ++ t]
     | none => [])
  let joined := String.intercalate ", " parts
  if joined = "" then req.prompt else joined ++ ". " ++ req.prompt

/-- Task label, lines 449-454. -/
def taskLabel (req : GenerationRequest) : String :=
  if req.task_type = "cover" then "Creating cover"
  else if req.task_type = "repaint" then "Extending track"
  else "Generating audio"

/-- Instruction-string selection, lines 469-480. -/
def instructionChoice (req : GenerationRequest) : String :=
  if req.task_type = "cover" then
    "Generate audio semantic tokens based on the given conditions:"
  else if req.task_type = "repaint" then
    "Repaint the mask area based on the given conditions:"
  else
    "Fill the audio semantic mask based on the given conditions:"

/-! ### Audio post-processing (lines 543-549) -/

/-- Peak absolute sample of a buffer: `np.max(np.abs(audio_float))`,
with 0 for the empty buffer. -/
def peak (l : List ℚ) : ℚ :=
  (l.map (fun x => |x|)).foldr max 0

/-- Peak normalization, lines 543-546: when the peak is positive the buffer is
scaled by `0.95 / peak` (`audio_float / max_val * 0.95`); a silent buffer is
passed through unchanged. -/
def normalizeAudio (l : List ℚ) : List ℚ :=
  let m := peak l
  if 0 < m then l.map (fun x => x / m * (95/100)) else l

/-- Truncation toward zero, the C float-to-int conversion performed by
`astype(np.int16)` for in-range values. -/
def truncTowardZero (x : ℚ) : Int :=
  if 0 ≤ x then ⌊x⌋ else ⌈x⌉

/-- Wrap an integer into the int16 range, the numpy out-of-range behaviour of
`astype(np.int16)`; identity on values already in [-32768, 32767]. -/
def toInt16 (v : Int) : Int :=
  (v + 32768) % 65536 - 32768

/-- Quantization, line 549: `(audio_float * 32767).astype(np.int16)` —
multiply by 32767, truncate toward zero, convert to int16. -/
def quantizeInt16 (l : List ℚ) : List Int :=
  l.map (fun x => toInt16 (truncTowardZero (x * 32767)))

/-- The full post-processing pipeline applied to one raw buffer
(lines 543-549): peak normalization followed by int16 quantization. -/
def processAudio (l : List ℚ) : List Int :=
  quantizeInt16 (normalizeAudio l)

/-! ### Request validation (HTTP endpoint lines 342-355, WebSocket lines 615-662) -/

/-- Structured validation errors; `renderDetail` produces the exact `detail`
strings sent to clients. -/
inductive ValErr where
  | unknownModel (m : String)
  | durationExceeded (model : String) (maxDur : Nat) (got : Int)
  | coverNeedsSource
  | repaintNeedsSource
  | sourceNotFound (p : String)
  | repaintNeedsEnd
deriving DecidableEq, Repr

/-- The `detail` strings of `backend/main.py` lines 347, 352, 618-661. -/
def renderDetail : ValErr → String
  | .unknownModel m => "Unknown model: " ++ m
  | .durationExceeded model maxDur got =>
      "Max duration for " ++ model ++ " is " ++ toString maxDur ++ "s, got " ++
        toString got ++ "s"
  | .coverNeedsSource => "Cover mode requires source_audio_path"
  | .repaintNeedsSource => "Repaint/extend mode requires source_audio_path"
  | .sourceNotFound p => "Source audio not found: " ++ p
  | .repaintNeedsEnd => "Repaint/extend mode requires repainting_end"

/-- Pre-submission validation of the HTTP endpoint `generate_music`
(lines 342-355): only the model id and the duration cap are checked before
the job is handed to the worker pool. -/
def httpValidate (req : GenerationRequest) : Option ValErr :=
  match registryFind req.model with
  | none => some (ValErr.unknownModel req.model)
  | some info =>
    if (info.max_duration : Int) < req.duration then
      some (ValErr.durationExceeded req.model info.max_duration req.duration)
    else
      none

/-- Pre-submission validation of the WebSocket endpoint `ws_generate`
(lines 615-662): model id, duration cap, cover/repaint source-path presence
and existence, and the repaint end time. `fileExists` models
`os.path.exists`. -/
def wsValidate (req : GenerationRequest) (fileExists : String → Bool) : Option ValErr :=
  match registryFind req.model with
  | none => some (ValErr.unknownModel req.model)
  | some info =>
    if (info.max_duration : Int) < req.duration then
      some (ValErr.durationExceeded req.model info.max_duration req.duration)
    else if req.task_type = "cover" then
      if strTruthy req.source_audio_path = false then some ValErr.coverNeedsSource
      else if fileExists (srcPath req) = false then
        some (ValErr.sourceNotFound (srcPath req))
      else none
    else if req.task_type = "repaint" then
      if strTruthy req.source_audio_path = false then some ValErr.repaintNeedsSource
      else if fileExists (srcPath req) = false then
        some (ValErr.sourceNotFound (srcPath req))
      else if req.repainting_end = none then some ValErr.repaintNeedsEnd
      else none
    else none

/-- Whether the HTTP endpoint submits the job to the worker pool: it does
exactly when its (model/duration-only) validation passes (line 355). -/
def httpSubmits (req : GenerationRequest) : Bool :=
  (httpValidate req).isNone

/-- Whether the WebSocket endpoint submits the job to the worker pool: it does
exactly when all its validation checks pass (line 672 is reached only when no
early `return` in lines 616-662 fired). -/
def wsSubmits (req : GenerationRequest) (fileExists : String → Bool) : Bool :=
  (wsValidate req fileExists).isNone

/-! ### The synchronous generation worker `_generate_acestep_sync` (lines 368-572) -/

/-- Exceptions the worker can raise: `GenerationCancelledError` (line 381),
load failures from `_load_handler` (ImportError/RuntimeError), the
`FileNotFoundError` of line 412, and the `RuntimeError`s of lines 514 and 521. -/
inductive WErr where
  | cancelled
  | loadFailed
  | fileNotFound (p : String)
  | genFailed (m : String)
  | noAudio
deriving DecidableEq, Repr

/-- One raw audio buffer returned by the model handler: the per-sample buffer
(after channel handling, which is outside the scope of the claims) and its
sample rate. -/
structure AudioItem where
  samples : List ℚ
  sample_rate : Nat
deriving DecidableEq, Repr

/-- The keyword arguments assembled for `handler.generate_music`
(lines 483-504). The `repainting_start`/`repainting_end` options model the
keys being added to the dict only in repaint mode (lines 500-504). -/
structure GenKwargs where
  captions : String
  lyrics : String
  audio_duration : ℚ
  inference_steps : Nat
  guidance_scale : ℚ
  task_type : String
  src_audio : Option String
  audio_cover_strength : ℚ
  instruction : String
  reference_audio : Option String
  batch_size : Int
  seed : Int
  use_random_seed : Bool
  repainting_start : Option ℚ
  repainting_end : Option ℚ
deriving DecidableEq, Repr

/-- Environment of one worker run: everything the Python worker reads from
outside the request. `cancelAt i` is the value of `cancel_event.is_set()`
observed by the i-th executed cancellation checkpoint; `loadOk` is whether
`_load_handler()` succeeds; `fileExists` models `os.path.exists`; `wavRead`
models `scipy.io.wavfile.read`; `urandom4` is the `os.urandom(4)` draw;
`bridge` is the (val, desc) sequence of native progress callbacks issued by
`handler.generate_music`; `genSuccess`/`genErr`/`audios` model the handler's
result dict; `pathFor i` is the fresh `uuid4` output path of batch item i. -/
structure Env where
  cancelAt : Nat → Bool
  loadOk : Bool
  fileExists : String → Bool
  wavRead : String → Option (Nat × Nat)
  urandom4 : Nat
  bridge : List (ℚ × String)
  genSuccess : Bool
  genErr : Option String
  audios : List AudioItem
  pathFor : Nat → String

/-- Observable actions of a worker run, in execution order:
cache clears (lines 384 and 571), cancellation checkpoints (`_throw_if_cancelled`
call sites, numbered in execution order), progress callbacks, the
`_load_handler()` call, the `handler.generate_music` call with its kwargs, and
WAV writes (line 554, with the quantized PCM and sample rate). -/
inductive Act where
  | clearCache
  | checkpoint (i : Nat)
  | progress (p : ℚ) (message : String)
  | loadHandler
  | callModel (kwargs : GenKwargs)
  | writeWav (path : String) (pcm : List Int) (sample_rate : Nat)
deriving DecidableEq, Repr

/-- The progress value published by the native progress bridge (line 462):
`0.15 + val * 0.70`. -/
def bridgeVal (v : ℚ) : ℚ :=
  15/100 + v * (70/100)

/-- The native progress callbacks fired inside `handler.generate_music`
(lines 460-463): each first checkpoints cancellation, then publishes the
remapped progress with a "<label> (<desc>)..." message. `i` is the index of
the next checkpoint; the Bool result is whether a callback raised
`GenerationCancelledError`. -/
def bridgeRun (cancelAt : Nat → Bool) (label : String) :
    Nat → List (ℚ × String) → List Act × Bool
  | _, [] => ([], false)
  | i, (v, d) :: rest =>
    if cancelAt i = true then ([Act.checkpoint i], true)
    else
      (Act.checkpoint i ::
        Act.progress (bridgeVal v) (label ++ " (" ++ d ++ ")...") ::
        (bridgeRun cancelAt label (i + 1) rest).1,
       (bridgeRun cancelAt label (i + 1) rest).2)

/-- The per-variation post-processing loop (lines 523-568): for batch item
`idx`, checkpoint cancellation, normalize + quantize the buffer, write the WAV
at a fresh path, and append a GenerationResponse carrying the job's single
effective seed. `cpI` is the index of the next checkpoint. -/
def audioRun (env : Env) (seed : Int) :
    Nat → Nat → List AudioItem → List Act × Except WErr (List GenerationResponse)
  | _, _, [] => ([], Except.ok [])
  | cpI, idx, item :: rest =>
    if env.cancelAt cpI = true then ([Act.checkpoint cpI], Except.error WErr.cancelled)
    else
      (Act.checkpoint cpI ::
        Act.writeWav (env.pathFor idx) (processAudio item.samples) item.sample_rate ::
        (audioRun env seed (cpI + 1) (idx + 1) rest).1,
       (audioRun env seed (cpI + 1) (idx + 1) rest).2.map (fun rs =>
         { audio_path := env.pathFor idx
           sample_rate := item.sample_rate
           duration := (item.samples.length : ℚ) / (item.sample_rate : ℚ)
           seed := some seed } :: rs))

/-- The kwargs dict of lines 483-504, assembled from the resolved parameters. -/
def mkKwargs (req : GenerationRequest) (env : Env) : GenKwargs :=
  { captions := buildCaption req
    lyrics := req.lyrics.getD "[inst]"
    audio_duration := resolveDuration req env.wavRead
    inference_steps := qualitySteps req.quality_mode
    guidance_scale := req.guidance_scale
    task_type := req.task_type
    src_audio :=
      if req.task_type = "cover" ∨ req.task_type = "repaint" then
        req.source_audio_path
      else none
    audio_cover_strength :=
      if req.task_type = "cover" then req.ref_audio_strength else 1
    instruction := instructionChoice req
    reference_audio :=
      if req.task_type = "cover" then req.source_audio_path else none
    batch_size := clampBatch req.batch_size
    seed := resolveSeed req.seed env.urandom4
    use_random_seed := false
    repainting_start :=
      if req.task_type = "repaint" then req.repainting_start else none
    repainting_end :=
      if req.task_type = "repaint" then req.repainting_end else none }

/-- The "(<n> variations)" suffix of line 456. -/
def batchSuffix (req : GenerationRequest) : String :=
  if 1 < clampBatch req.batch_size then
    " (" ++ toString (clampBatch req.batch_size) ++ " variations)"
  else ""

/-- The leading actions of the `try` block: the 0.15 progress event (line 457)
and the `handler.generate_music` invocation (line 506), whose native callbacks
follow as `bridgeRun` actions. -/
def tryHead (req : GenerationRequest) (env : Env) : List Act :=
  [Act.progress (15/100) (taskLabel req ++ batchSuffix req ++ "..."),
   Act.callModel (mkKwargs req env)]

/-- The body of the worker's `try` block (lines 448-568). Checkpoints 3 to
`3 + bridge.length - 1` fire inside the native progress callbacks, checkpoint
`3 + bridge.length` at line 507, and the per-variation checkpoints (line 525)
after that. The caller appends the `finally` cache clear (lines 570-572) to
every exit of this function. -/
def tryPhase (req : GenerationRequest) (env : Env) :
    List Act × Except WErr (List GenerationResponse) :=
  if (bridgeRun env.cancelAt (taskLabel req) 3 env.bridge).2 = true then
    (tryHead req env ++ (bridgeRun env.cancelAt (taskLabel req) 3 env.bridge).1,
     Except.error WErr.cancelled)
  else if env.cancelAt (3 + env.bridge.length) = true then
    (tryHead req env ++ (bridgeRun env.cancelAt (taskLabel req) 3 env.bridge).1 ++
      [Act.checkpoint (3 + env.bridge.length)],
     Except.error WErr.cancelled)
  else if env.genSuccess = false then
    (tryHead req env ++ (bridgeRun env.cancelAt (taskLabel req) 3 env.bridge).1 ++
      [Act.checkpoint (3 + env.bridge.length)],
     Except.error (WErr.genFailed (env.genErr.getD "Unknown generation error")))
  else if env.audios.isEmpty = true then
    (tryHead req env ++ (bridgeRun env.cancelAt (taskLabel req) 3 env.bridge).1 ++
      [Act.checkpoint (3 + env.bridge.length),
       Act.progress (85/100) "Processing audio..."],
     Except.error WErr.noAudio)
  else
    (tryHead req env ++ (bridgeRun env.cancelAt (taskLabel req) 3 env.bridge).1 ++
      [Act.checkpoint (3 + env.bridge.length),
       Act.progress (85/100) "Processing audio..."] ++
      (audioRun env (resolveSeed req.seed env.urandom4)
        (3 + env.bridge.length + 1) 0 env.audios).1,
     (audioRun env (resolveSeed req.seed env.urandom4)
       (3 + env.bridge.length + 1) 0 env.audios).2)

/-- Whether the file-existence check of lines 410-412 raises: the task is
cover or repaint, the source path is truthy, and the file does not exist. -/
def srcCheckFails (req : GenerationRequest) (env : Env) : Prop :=
  (req.task_type = "cover" ∨ req.task_type = "repaint") ∧
    strTruthy req.source_audio_path = true ∧
    env.fileExists (srcPath req) = false

instance (req : GenerationRequest) (env : Env) : Decidable (srcCheckFails req env) := by
  unfold srcCheckFails; infer_instance

/-- The whole of `_generate_acestep_sync` (lines 368-572), as a trace of
actions plus an outcome. The structure mirrors the Python control flow:
the leading cache clear (line 384); checkpoint 0 (line 386); the 0.05
progress event (line 387); `_load_handler()` (line 388); checkpoint 1
(line 389); the source-file check (lines 410-412); the 0.10 progress event
(line 445); checkpoint 2 (line 446); then the `try` block, whose every exit
(success or exception) appends the `finally` cache clear (lines 570-572).
Exceptions raised before the `try` block starts are NOT followed by that
trailing cache clear, exactly as in the Python. -/
def workerRun (req : GenerationRequest) (env : Env) :
    List Act × Except WErr (List GenerationResponse) :=
  if env.cancelAt 0 = true then
    ([Act.clearCache, Act.checkpoint 0], Except.error WErr.cancelled)
  else if env.loadOk = false then
    ([Act.clearCache, Act.checkpoint 0,
      Act.progress (5/100) "Loading music engine...", Act.loadHandler],
     Except.error WErr.loadFailed)
  else if env.cancelAt 1 = true then
    ([Act.clearCache, Act.checkpoint 0,
      Act.progress (5/100) "Loading music engine...", Act.loadHandler,
      Act.checkpoint 1],
     Except.error WErr.cancelled)
  else if srcCheckFails req env then
    ([Act.clearCache, Act.checkpoint 0,
      Act.progress (5/100) "Loading music engine...", Act.loadHandler,
      Act.checkpoint 1],
     Except.error (WErr.fileNotFound (srcPath req)))
  else if env.cancelAt 2 = true then
    ([Act.clearCache, Act.checkpoint 0,
      Act.progress (5/100) "Loading music engine...", Act.loadHandler,
      Act.checkpoint 1,
      Act.progress (10/100) "Preparing generation parameters...",
      Act.checkpoint 2],
     Except.error WErr.cancelled)
  else
    ([Act.clearCache, Act.checkpoint 0,
      Act.progress (5/100) "Loading music engine...", Act.loadHandler,
      Act.checkpoint 1,
      Act.progress (10/100) "Preparing generation parameters...",
      Act.checkpoint 2] ++ (tryPhase req env).1 ++ [Act.clearCache],
     (tryPhase req env).2)

/-- The (progress, message) pairs an action contributes to the progress queue. -/
def actProgressEvent : Act → Option (ℚ × String)
  | .progress p m => some (p, m)
  | _ => none

/-- Just the progress value of an action, if any. -/
def actProgressVal : Act → Option ℚ
  | .progress p _ => some p
  | _ => none

/-- The progress values of an action trace, in publication order. -/
def valsOfActs (acts : List Act) : List ℚ :=
  acts.filterMap actProgressVal

/-- The ProgressEvents a worker run publishes into the progress queue
(line 668: `progress_queue.put(("progress", progress, message))`), in order. -/
def workerProgressEvents (req : GenerationRequest) (env : Env) : List (ℚ × String) :=
  (workerRun req env).1.filterMap actProgressEvent

/-! ### The WebSocket session (`ws_generate`, lines 600-744) -/

/-- Outbound WebSocket frames: the JSON messages of lines 680-684, 693,
714-725 and 742. -/
inductive WsMsg where
  | progress (p : ℚ) (message : String)
  | heartbeat
  | complete (audio_path : String) (sample_rate : Nat) (duration : ℚ)
      (audio_paths : List String) (durations : List ℚ) (seed : Option Int)
  | error (detail : String)
deriving DecidableEq, Repr

/-- Forwarding one drained batch of queue events as progress frames
(lines 678-684 and 698-704). -/
def forwardChunk (c : List (ℚ × String)) : List WsMsg :=
  c.map (fun e => WsMsg.progress e.1 e.2)

/-- The RUNNING loop (lines 675-694): each iteration in which the job is not
yet done drains the currently queued events, forwards them, and sends one
heartbeat. `rounds` is the per-iteration partition of drained events. -/
def wsStreamLoop (rounds : List (List (ℚ × String))) : List WsMsg :=
  rounds.foldr (fun c acc => forwardChunk c ++ [WsMsg.heartbeat] ++ acc) []

/-- The full message sequence of a session that reaches a terminal frame:
the RUNNING loop iterations, the final iteration's drain (after which
`gen_future.done()` broke the loop, line 689-690), the DRAINING drain of
lines 696-706, and the terminal frame (complete, line 725, or error,
line 742) — always sent last. -/
def wsSessionMsgs (rounds : List (List (ℚ × String)))
    (finalChunk drainChunk : List (ℚ × String)) (terminal : WsMsg) : List WsMsg :=
  wsStreamLoop rounds ++ forwardChunk finalChunk ++ forwardChunk drainChunk ++
    [terminal]

/-- The complete frame built from a nonempty result list (lines 713-725);
its seed field is `results[0].seed`. -/
def mkCompleteMsg (r0 : GenerationResponse) (rest : List GenerationResponse) : WsMsg :=
  WsMsg.complete r0.audio_path r0.sample_rate r0.duration
    ((r0 :: rest).map (fun r => r.audio_path))
    ((r0 :: rest).map (fun r => r.duration))
    r0.seed

/-- The seed field of a complete frame. -/
def msgSeed : WsMsg → Option Int
  | .complete _ _ _ _ _ s => s
  | _ => none

/-- The progress values a client observes in a message sequence. -/
def progressValues (msgs : List WsMsg) : List ℚ :=
  msgs.filterMap (fun m =>
    match m with
    | .progress p _ => some p
    | _ => none)

/-- Whether a frame is a terminal frame (complete or error). -/
def isTerminalMsg : WsMsg → Bool
  | .complete _ _ _ _ _ _ => true
  | .error _ => true
  | _ => false

/-- The exceptions the session handler's `except` clauses distinguish
(lines 728-744). -/
inductive SessionExc where
  | cancelledExc
  | disconnect
  | otherExc (msg : String)
deriving DecidableEq, Repr

/-- The `except` clauses of `ws_generate` (lines 728-744): the result is
(whether `cancel_event.set()` is executed, the frames sent).
`GenerationCancelledError` is only logged (lines 728-729): no frame, no set.
`WebSocketDisconnect` sets the token and cancels the pending future
(lines 730-735): no frame. Any other exception sets the token and sends a
best-effort error frame (lines 736-744). -/
def wsExceptionHandler : SessionExc → Bool × List WsMsg
  | .cancelledExc => (false, [])
  | .disconnect => (true, [])
  | .otherExc m => (true, [WsMsg.error m])

/-- The threading.Event contract: the flag is set exactly once and never
cleared, so the value it shows to later checkpoints is monotone. -/
def cancelMonotone (f : Nat → Bool) : Prop :=
  ∀ i j : Nat, i ≤ j → f i = true → f j = true

/-- Whether a validation error is the duration-cap error. -/
def isDurationErr : ValErr → Bool
  | .durationExceeded _ _ _ => true
  | _ => false

/-! ### Concrete scenarios used by witnesses and counterexamples -/

/-- The registry entry for the "acestep" model id. -/
def acestepInfo : ModelInfo :=
  { hf_name := "ACE-Step/acestep-v15-turbo", size_gb := 5,
    min_ram_gb := 8, max_duration := 240, supports_lyrics := true }

/-- A benign environment: no cancellation, handler loads, every file exists,
one successful audio buffer, no native progress callbacks. -/
def envClean : Env :=
  { cancelAt := fun _ => false
    loadOk := true
    fileExists := fun _ => true
    wavRead := fun _ => some (48000, 1440000)
    urandom4 := 5
    bridge := []
    genSuccess := true
    genErr := none
    audios := [{ samples := [1/2], sample_rate := 2 }]
    pathFor := fun _ => "out.wav" }

/-- The single response a clean run of the default request produces. -/
def respClean : GenerationResponse :=
  { audio_path := "out.wav", sample_rate := 2,
    duration := ((1 : Nat) : ℚ) / ((2 : Nat) : ℚ),
    seed := some (resolveSeed defaultRequest.seed envClean.urandom4) }

/-- An environment whose cancellation token is already set when the worker
starts (the client disconnected before the first checkpoint). -/
def envStopped : Env :=
  { envClean with cancelAt := fun _ => true }

/-- An environment where the token becomes set from checkpoint 1 onward. -/
def envLateCancel : Env :=
  { envClean with cancelAt := fun i => decide (1 ≤ i) }

/-- An environment in which no file exists on disk. -/
def envNoFiles : Env :=
  { envClean with fileExists := fun _ => false }

/-- A repaint request that lacks an end time (with an existing source file). -/
def reqRepaintNoEnd : GenerationRequest :=
  { defaultRequest with task_type := "repaint",
                        source_audio_path := some "/tmp/src.wav" }

/-- A cover request whose source audio file does not exist on disk. -/
def reqCoverMissing : GenerationRequest :=
  { defaultRequest with task_type := "cover",
                        source_audio_path := some "/missing.wav" }

/-- A request whose duration exceeds the model's 240 s cap. -/
def reqTooLong : GenerationRequest :=
  { defaultRequest with duration := 300 }

/-! ### Helper lemmas about traces and progress values -/

theorem valsOfActs_append (l₁ l₂ : List Act) :
    valsOfActs (l₁ ++ l₂) = valsOfActs l₁ ++ valsOfActs l₂ := by
  simp [valsOfActs]

theorem valsOfActs_tryHead (req : GenerationRequest) (env : Env) :
    valsOfActs (tryHead req env) = [15/100] := by
  simp [valsOfActs, tryHead, actProgressVal]

/-- The progress values published by the native bridge callbacks: the
remapped values of some prefix of the callback value sequence (a proper
prefix exactly when a callback checkpoint raised). -/
theorem bridgeRun_vals (c : Nat → Bool) (label : String) :
    ∀ (l : List (ℚ × String)) (i : Nat),
      ∃ vs t, vs ++ t = l.map Prod.fst ∧
        valsOfActs (bridgeRun c label i l).1 = vs.map bridgeVal
  | [], _ => ⟨[], [], rfl, rfl⟩
  | (v, d) :: rest, i => by
    by_cases h : c i
    · exact ⟨[], ((v, d) :: rest).map Prod.fst, rfl,
        by simp [bridgeRun, h, valsOfActs, actProgressVal]⟩
    · obtain ⟨vs, t, hvt, hvals⟩ := bridgeRun_vals c label rest (i + 1)
      refine ⟨v :: vs, t, by simp [hvt], ?_⟩
      simp [bridgeRun, h, valsOfActs, actProgressVal] at hvals ⊢
      exact hvals

theorem chainConsBound {a : ℚ} {l : List ℚ} (h : ∀ x ∈ l, a ≤ x)
    (hl : List.Chain' (· ≤ ·) l) : List.Chain' (· ≤ ·) (a :: l) := by
  rw [List.chain'_cons']
  exact ⟨fun y hy => h y (List.mem_of_mem_head? hy), hl⟩

theorem chainConcatBound {b : ℚ} {l : List ℚ} (h : ∀ x ∈ l, x ≤ b)
    (hl : List.Chain' (· ≤ ·) l) : List.Chain' (· ≤ ·) (l ++ [b]) := by
  rw [List.chain'_append]
  refine ⟨hl, List.chain'_singleton b, fun x hx y hy => ?_⟩
  have hyb : b = y := by simpa using hy
  subst hyb
  obtain ⟨hne, hxe⟩ := List.mem_getLast?_eq_getLast hx
  exact hxe ▸ h _ (List.getLast_mem hne)

theorem bridgeVal_mono {a b : ℚ} (h : a ≤ b) : bridgeVal a ≤ bridgeVal b := by
  unfold bridgeVal
  nlinarith

theorem bridgeVal_lb {v : ℚ} (h : 0 ≤ v) : 3/20 ≤ bridgeVal v := by
  unfold bridgeVal
  nlinarith

theorem bridgeVal_ub {v : ℚ} (h : v ≤ 1) : bridgeVal v ≤ 17/20 := by
  unfold bridgeVal
  nlinarith

/-- Under a monotone callback sequence with values in [0,1], the bridge's
published values form a non-decreasing chain inside [0.15, 0.85]. -/
theorem bridge_vals_chain (env : Env) (label : String) (i : Nat)
    (hb : List.Chain' (· ≤ ·) (env.bridge.map Prod.fst))
    (hbd : ∀ p ∈ env.bridge, 0 ≤ p.1 ∧ p.1 ≤ 1) :
    List.Chain' (· ≤ ·) (valsOfActs (bridgeRun env.cancelAt label i env.bridge).1) ∧
    ∀ x ∈ valsOfActs (bridgeRun env.cancelAt label i env.bridge).1,
      3/20 ≤ x ∧ x ≤ 17/20 := by
  obtain ⟨vs, t, hvt, hvals⟩ := bridgeRun_vals env.cancelAt label env.bridge i
  rw [hvals]
  have hvsmem : ∀ v ∈ vs, 0 ≤ v ∧ v ≤ 1 := by
    intro v hv
    have : v ∈ env.bridge.map Prod.fst := by
      rw [← hvt]; exact List.mem_append_left _ hv
    obtain ⟨p, hp, hpv⟩ := List.mem_map.1 this
    exact hpv ▸ hbd p hp
  constructor
  · have hvs : List.Chain' (· ≤ ·) vs := by
      rw [← hvt] at hb
      exact hb.prefix ⟨t, rfl⟩
    rw [List.chain'_map]
    exact hvs.imp fun _ _ h => bridgeVal_mono h
  · intro x hx
    obtain ⟨v, hv, hvx⟩ := List.mem_map.1 hx
    obtain ⟨h0, h1⟩ := hvsmem v hv
    exact hvx ▸ ⟨bridgeVal_lb h0, bridgeVal_ub h1⟩

/-- The post-processing loop publishes no progress events. -/
theorem audioRun_vals (env : Env) (seed : Int) :
    ∀ (items : List AudioItem) (cpI idx : Nat),
      valsOfActs (audioRun env seed cpI idx items).1 = []
  | [], _, _ => rfl
  | item :: rest, cpI, idx => by
    by_cases h : env.cancelAt cpI
    · simp [audioRun, h, valsOfActs, actProgressVal]
    · simpa [audioRun, h, valsOfActs, actProgressVal] using
        audioRun_vals env seed rest (cpI + 1) (idx + 1)

/-- On every exit of the `try` block the published progress values are a
non-decreasing chain starting at 0.15. -/
theorem tryPhase_vals (req : GenerationRequest) (env : Env)
    (hb : List.Chain' (· ≤ ·) (env.bridge.map Prod.fst))
    (hbd : ∀ p ∈ env.bridge, 0 ≤ p.1 ∧ p.1 ≤ 1) :
    List.Chain' (· ≤ ·) (valsOfActs (tryPhase req env).1) ∧
    (valsOfActs (tryPhase req env).1).head? = some (15/100) := by
  obtain ⟨hchain, hbound⟩ := bridge_vals_chain env (taskLabel req) 3 hb hbd
  have hlow : ∀ x ∈ valsOfActs (bridgeRun env.cancelAt (taskLabel req) 3 env.bridge).1,
      3/20 ≤ x := fun x hx => (hbound x hx).1
  have hhigh : ∀ x ∈ valsOfActs (bridgeRun env.cancelAt (taskLabel req) 3 env.bridge).1,
      x ≤ 17/20 := fun x hx => (hbound x hx).2
  have h15 : (15 : ℚ)/100 = 3/20 := by norm_num
  have h85 : (85 : ℚ)/100 = 17/20 := by norm_num
  have hshort : List.Chain' (· ≤ ·)
      ((15 : ℚ)/100 :: valsOfActs (bridgeRun env.cancelAt (taskLabel req) 3 env.bridge).1) := by
    rw [h15]
    exact chainConsBound hlow hchain
  have hlong : List.Chain' (· ≤ ·)
      ((15 : ℚ)/100 :: (valsOfActs (bridgeRun env.cancelAt (taskLabel req) 3 env.bridge).1 ++
        [85/100])) := by
    rw [h15, h85]
    refine chainConsBound ?_ (chainConcatBound hhigh hchain)
    intro x hx
    rcases List.mem_append.1 hx with hx | hx
    · exact hlow x hx
    · have hx17 : x = 17/20 := by simpa using hx
      rw [hx17]
      norm_num
  unfold tryPhase
  by_cases hbc : (bridgeRun env.cancelAt (taskLabel req) 3 env.bridge).2 = true
  · rw [if_pos hbc]
    dsimp only
    rw [valsOfActs_append, valsOfActs_tryHead, List.singleton_append]
    exact ⟨hshort, rfl⟩
  · rw [if_neg hbc]
    by_cases hc3 : env.cancelAt (3 + env.bridge.length) = true
    · rw [if_pos hc3]
      dsimp only
      rw [valsOfActs_append, valsOfActs_append, valsOfActs_tryHead, List.singleton_append]
      have hcp : valsOfActs [Act.checkpoint (3 + env.bridge.length)] = [] := rfl
      rw [hcp, List.append_nil]
      exact ⟨hshort, rfl⟩
    · rw [if_neg hc3]
      by_cases hgs : env.genSuccess = false
      · rw [if_pos hgs]
        dsimp only
        rw [valsOfActs_append, valsOfActs_append, valsOfActs_tryHead, List.singleton_append]
        have hcp : valsOfActs [Act.checkpoint (3 + env.bridge.length)] = [] := rfl
        rw [hcp, List.append_nil]
        exact ⟨hshort, rfl⟩
      · rw [if_neg hgs]
        by_cases hae : env.audios.isEmpty = true
        · rw [if_pos hae]
          dsimp only
          rw [valsOfActs_append, valsOfActs_append, valsOfActs_tryHead, List.singleton_append]
          have hcp : valsOfActs [Act.checkpoint (3 + env.bridge.length),
              Act.progress (85/100) "Processing audio..."] = [85/100] := rfl
          rw [hcp]
          exact ⟨hlong, rfl⟩
        · rw [if_neg hae]
          dsimp only
          rw [valsOfActs_append, valsOfActs_append, valsOfActs_append, valsOfActs_tryHead,
            List.singleton_append]
          have hcp : valsOfActs [Act.checkpoint (3 + env.bridge.length),
              Act.progress (85/100) "Processing audio..."] = [85/100] := rfl
          rw [hcp, audioRun_vals, List.append_nil]
          exact ⟨hlong, rfl⟩

/-- Main C1 helper: for every worker run — every request, every outcome,
cancellation at any point — the published progress values form a
non-decreasing chain, provided the native callback values are monotone and
lie in [0,1]. -/
theorem workerVals_chain (req : GenerationRequest) (env : Env)
    (hb : List.Chain' (· ≤ ·) (env.bridge.map Prod.fst))
    (hbd : ∀ p ∈ env.bridge, 0 ≤ p.1 ∧ p.1 ≤ 1) :
    List.Chain' (· ≤ ·) (valsOfActs (workerRun req env).1) := by
  unfold workerRun
  by_cases h0 : env.cancelAt 0 = true
  · rw [if_pos h0]
    exact List.chain'_nil
  · rw [if_neg h0]
    by_cases hld : env.loadOk = false
    · rw [if_pos hld]
      exact List.chain'_singleton _
    · rw [if_neg hld]
      by_cases h1 : env.cancelAt 1 = true
      · rw [if_pos h1]
        exact List.chain'_singleton _
      · rw [if_neg h1]
        by_cases hsrc : srcCheckFails req env
        · rw [if_pos hsrc]
          exact List.chain'_singleton _
        · rw [if_neg hsrc]
          by_cases h2 : env.cancelAt 2 = true
          · rw [if_pos h2]
            show List.Chain' (· ≤ ·) [5/100, 10/100]
            rw [List.chain'_pair]
            norm_num
          · rw [if_neg h2]
            obtain ⟨htc, thd⟩ := tryPhase_vals req env hb hbd
            dsimp only
            rw [valsOfActs_append, valsOfActs_append]
            have hpre : valsOfActs [Act.clearCache, Act.checkpoint 0,
                Act.progress (5/100) "Loading music engine...", Act.loadHandler,
                Act.checkpoint 1,
                Act.progress (10/100) "Preparing generation parameters...",
                Act.checkpoint 2] = [5/100, 10/100] := rfl
            have hcc : valsOfActs [Act.clearCache] = [] := rfl
            rw [hpre, hcc, List.append_nil]
            rw [List.cons_append, List.cons_append, List.nil_append]
            rw [List.chain'_cons']
            refine ⟨fun y hy => ?_, ?_⟩
            · have hy10 : (10 : ℚ)/100 = y := by simpa using hy
              rw [← hy10]
              norm_num
            · rw [List.chain'_cons']
              refine ⟨fun y hy => ?_, htc⟩
              rw [thd] at hy
              have hy15 : (15 : ℚ)/100 = y := by simpa using hy
              rw [← hy15]
              norm_num

/-- The progress values of the published (value, message) events are the
published values. -/
theorem actEvents_fst : ∀ acts : List Act,
    (acts.filterMap actProgressEvent).map Prod.fst = valsOfActs acts
  | [] => rfl
  | a :: l => by
    cases a <;>
      simp [actProgressEvent, actProgressVal, valsOfActs, actEvents_fst l]

/-! ### Helper lemmas about the WebSocket message sequence -/

theorem progressValues_append (l₁ l₂ : List WsMsg) :
    progressValues (l₁ ++ l₂) = progressValues l₁ ++ progressValues l₂ := by
  simp [progressValues]

theorem progressValues_forwardChunk (c : List (ℚ × String)) :
    progressValues (forwardChunk c) = c.map Prod.fst := by
  induction c with
  | nil => rfl
  | cons e rest ih => simp [forwardChunk, progressValues] at ih ⊢; exact ih

theorem wsStreamLoop_cons (c : List (ℚ × String)) (rest : List (List (ℚ × String))) :
    wsStreamLoop (c :: rest) =
      forwardChunk c ++ [WsMsg.heartbeat] ++ wsStreamLoop rest := rfl

theorem progressValues_heartbeat : progressValues [WsMsg.heartbeat] = [] := rfl

theorem progressValues_streamLoop (rounds : List (List (ℚ × String))) :
    progressValues (wsStreamLoop rounds) = rounds.flatten.map Prod.fst := by
  induction rounds with
  | nil => rfl
  | cons c rest ih =>
    rw [wsStreamLoop_cons, List.append_assoc, progressValues_append,
      progressValues_append, progressValues_forwardChunk, progressValues_heartbeat,
      ih]
    simp

theorem progressValues_terminal (t : WsMsg) (ht : isTerminalMsg t = true) :
    progressValues [t] = [] := by
  cases t <;> simp [isTerminalMsg] at ht ⊢ <;> rfl

theorem wsSessionMsgs_getLast (rounds : List (List (ℚ × String)))
    (finalChunk drainChunk : List (ℚ × String)) (terminal : WsMsg) :
    (wsSessionMsgs rounds finalChunk drainChunk terminal).getLast? = some terminal := by
  unfold wsSessionMsgs
  rw [List.getLast?_append_cons]
  rfl

theorem progressValues_session (rounds : List (List (ℚ × String)))
    (finalChunk drainChunk : List (ℚ × String)) (terminal : WsMsg)
    (ht : isTerminalMsg terminal = true) :
    progressValues (wsSessionMsgs rounds finalChunk drainChunk terminal) =
      (rounds.flatten ++ finalChunk ++ drainChunk).map Prod.fst := by
  unfold wsSessionMsgs
  rw [progressValues_append, progressValues_append, progressValues_append,
    progressValues_streamLoop, progressValues_forwardChunk, progressValues_forwardChunk,
    progressValues_terminal _ ht]
  simp [List.map_append, List.append_assoc]

/-! ### Helper lemmas about checkpoints and cancellation -/

/-- If a checkpoint executed inside the native callbacks observed the set
flag, the model call raised (the bridge's cancelled flag is true). -/
theorem bridgeRun_checkpoint_mem (c : Nat → Bool) (label : String) :
    ∀ (l : List (ℚ × String)) (i t' : Nat),
      Act.checkpoint t' ∈ (bridgeRun c label i l).1 → c t' = true →
      (bridgeRun c label i l).2 = true
  | [], i, t' => by
    intro hmem _
    simp [bridgeRun] at hmem
  | (v, d) :: rest, i, t' => by
    intro hmem hc
    by_cases h : c i = true
    · simp [bridgeRun, h]
    · simp only [bridgeRun, if_neg h, List.mem_cons] at hmem ⊢
      rcases hmem with h1 | h2 | h3
      · injection h1 with h1'
        exact absurd (h1' ▸ hc) h
      · exact absurd h2 (by simp)
      · exact bridgeRun_checkpoint_mem c label rest (i + 1) t' h3 hc

/-- If a checkpoint executed inside the post-processing loop observed the set
flag, the loop raised the cancellation error. -/
theorem audioRun_checkpoint_mem (env : Env) (seed : Int) :
    ∀ (items : List AudioItem) (cpI idx t' : Nat),
      Act.checkpoint t' ∈ (audioRun env seed cpI idx items).1 →
      env.cancelAt t' = true →
      (audioRun env seed cpI idx items).2 = Except.error WErr.cancelled
  | [], _, _, t' => by
    intro hmem _
    simp [audioRun] at hmem
  | item :: rest, cpI, idx, t' => by
    intro hmem hc
    by_cases h : env.cancelAt cpI = true
    · simp [audioRun, h]
    · simp only [audioRun, if_neg h, List.mem_cons] at hmem ⊢
      rcases hmem with h1 | h2 | h3
      · injection h1 with h1'
        exact absurd (h1' ▸ hc) h
      · exact absurd h2 (by simp)
      · rw [audioRun_checkpoint_mem env seed rest (cpI + 1) (idx + 1) t' h3 hc]
        rfl

theorem tryHead_no_checkpoint (req : GenerationRequest) (env : Env) (u : Nat) :
    Act.checkpoint u ∉ tryHead req env := by
  intro hu
  simp [tryHead] at hu

/-- If a checkpoint executed inside the `try` block observed the set flag,
the `try` block's outcome is the cancellation error. -/
theorem tryPhase_checkpoint_mem (req : GenerationRequest) (env : Env) (t' : Nat)
    (hmem : Act.checkpoint t' ∈ (tryPhase req env).1)
    (hc : env.cancelAt t' = true) :
    (tryPhase req env).2 = Except.error WErr.cancelled := by
  unfold tryPhase at hmem ⊢
  by_cases hbc : (bridgeRun env.cancelAt (taskLabel req) 3 env.bridge).2 = true
  · rw [if_pos hbc]
  · rw [if_neg hbc] at hmem ⊢
    have hnb : Act.checkpoint t' ∉ (bridgeRun env.cancelAt (taskLabel req) 3 env.bridge).1 :=
      fun hin => hbc (bridgeRun_checkpoint_mem _ _ _ _ _ hin hc)
    by_cases hc3 : env.cancelAt (3 + env.bridge.length) = true
    · rw [if_pos hc3]
    · rw [if_neg hc3] at hmem ⊢
      by_cases hgs : env.genSuccess = false
      · rw [if_pos hgs] at hmem
        exfalso
        dsimp only at hmem
        rcases List.mem_append.1 hmem with hm | hm
        · rcases List.mem_append.1 hm with hm2 | hm2
          · exact tryHead_no_checkpoint req env t' hm2
          · exact hnb hm2
        · have ht : t' = 3 + env.bridge.length := by simpa using hm
          exact hc3 (ht ▸ hc)
      · rw [if_neg hgs] at hmem ⊢
        by_cases hae : env.audios.isEmpty = true
        · rw [if_pos hae] at hmem
          exfalso
          dsimp only at hmem
          rcases List.mem_append.1 hmem with hm | hm
          · rcases List.mem_append.1 hm with hm2 | hm2
            · exact tryHead_no_checkpoint req env t' hm2
            · exact hnb hm2
          · have ht : t' = 3 + env.bridge.length := by simpa using hm
            exact hc3 (ht ▸ hc)
        · rw [if_neg hae] at hmem ⊢
          dsimp only at hmem ⊢
          rcases List.mem_append.1 hmem with hm | hm
          · rcases List.mem_append.1 hm with hm2 | hm2
            · rcases List.mem_append.1 hm2 with hm3 | hm3
              · exact absurd hm3 (tryHead_no_checkpoint req env t')
              · exact absurd hm3 hnb
            · exfalso
              have ht : t' = 3 + env.bridge.length := by simpa using hm2
              exact hc3 (ht ▸ hc)
          · exact audioRun_checkpoint_mem env _ env.audios _ 0 t' hm hc

/-- Main C2 helper: any executed checkpoint that observed the set flag makes
the whole worker run end in the cancellation error. -/
theorem workerRun_checkpoint_mem (req : GenerationRequest) (env : Env) (t' : Nat)
    (hmem : Act.checkpoint t' ∈ (workerRun req env).1)
    (hc : env.cancelAt t' = true) :
    (workerRun req env).2 = Except.error WErr.cancelled := by
  unfold workerRun at hmem ⊢
  by_cases h0 : env.cancelAt 0 = true
  · rw [if_pos h0]
  · rw [if_neg h0] at hmem ⊢
    by_cases hld : env.loadOk = false
    · rw [if_pos hld] at hmem
      exfalso
      have ht : t' = 0 := by simpa using hmem
      exact h0 (ht ▸ hc)
    · rw [if_neg hld] at hmem ⊢
      by_cases h1 : env.cancelAt 1 = true
      · rw [if_pos h1]
      · rw [if_neg h1] at hmem ⊢
        by_cases hsrc : srcCheckFails req env
        · rw [if_pos hsrc] at hmem
          exfalso
          have ht : t' = 0 ∨ t' = 1 := by simpa using hmem
          rcases ht with rfl | rfl
          · exact h0 hc
          · exact h1 hc
        · rw [if_neg hsrc] at hmem ⊢
          by_cases h2 : env.cancelAt 2 = true
          · rw [if_pos h2]
          · rw [if_neg h2] at hmem ⊢
            dsimp only at hmem ⊢
            rcases List.mem_append.1 hmem with hm | hm
            · rcases List.mem_append.1 hm with hm2 | hm2
              · exfalso
                have ht : t' = 0 ∨ t' = 1 ∨ t' = 2 := by simpa using hm2
                rcases ht with rfl | rfl | rfl
                · exact h0 hc
                · exact h1 hc
                · exact h2 hc
              · exact tryPhase_checkpoint_mem req env t' hm2 hc
            · exfalso
              simp at hm

/-! ### Helper lemmas about the effective seed carried by results -/

theorem audioRun_ok_seeds (env : Env) (seed : Int) :
    ∀ (items : List AudioItem) (cpI idx : Nat) (rs : List GenerationResponse),
      (audioRun env seed cpI idx items).2 = Except.ok rs →
      ∀ r ∈ rs, r.seed = some seed
  | [], _, _, rs => by
    intro h r hr
    simp [audioRun] at h
    subst h
    simp at hr
  | item :: rest, cpI, idx, rs => by
    intro h r hr
    by_cases hcp : env.cancelAt cpI = true
    · simp [audioRun, hcp] at h
    · simp only [audioRun, if_neg hcp] at h
      cases hrec : (audioRun env seed (cpI + 1) (idx + 1) rest).2 with
      | error e =>
        rw [hrec] at h
        simp [Except.map] at h
      | ok rs' =>
        rw [hrec] at h
        simp only [Except.map] at h
        injection h with h'
        subst h'
        rcases List.mem_cons.1 hr with rfl | hr'
        · rfl
        · exact audioRun_ok_seeds env seed rest (cpI + 1) (idx + 1) rs' hrec r hr'

theorem tryPhase_ok_seeds (req : GenerationRequest) (env : Env)
    (rs : List GenerationResponse) (h : (tryPhase req env).2 = Except.ok rs) :
    ∀ r ∈ rs, r.seed = some (resolveSeed req.seed env.urandom4) := by
  unfold tryPhase at h
  by_cases hbc : (bridgeRun env.cancelAt (taskLabel req) 3 env.bridge).2 = true
  · rw [if_pos hbc] at h
    simp at h
  · rw [if_neg hbc] at h
    by_cases hc3 : env.cancelAt (3 + env.bridge.length) = true
    · rw [if_pos hc3] at h
      simp at h
    · rw [if_neg hc3] at h
      by_cases hgs : env.genSuccess = false
      · rw [if_pos hgs] at h
        simp at h
      · rw [if_neg hgs] at h
        by_cases hae : env.audios.isEmpty = true
        · rw [if_pos hae] at h
          simp at h
        · rw [if_neg hae] at h
          dsimp only at h
          exact audioRun_ok_seeds env _ env.audios _ 0 rs h

/-- Main C10 helper: a successful worker run stamps every batch entry with
the single effective seed resolved for the job. -/
theorem workerRun_ok_seeds (req : GenerationRequest) (env : Env)
    (rs : List GenerationResponse) (h : (workerRun req env).2 = Except.ok rs) :
    ∀ r ∈ rs, r.seed = some (resolveSeed req.seed env.urandom4) := by
  unfold workerRun at h
  by_cases h0 : env.cancelAt 0 = true
  · rw [if_pos h0] at h
    simp at h
  · rw [if_neg h0] at h
    by_cases hld : env.loadOk = false
    · rw [if_pos hld] at h
      simp at h
    · rw [if_neg hld] at h
      by_cases h1 : env.cancelAt 1 = true
      · rw [if_pos h1] at h
        simp at h
      · rw [if_neg h1] at h
        by_cases hsrc : srcCheckFails req env
        · rw [if_pos hsrc] at h
          simp at h
        · rw [if_neg hsrc] at h
          by_cases h2 : env.cancelAt 2 = true
          · rw [if_pos h2] at h
            simp at h
          · rw [if_neg h2] at h
            dsimp only at h
            exact tryPhase_ok_seeds req env rs h

/-! ### Helper lemmas about the cache-clear actions -/

/-- A worker run always begins with the cache clear of line 384. -/
theorem workerRun_head_clearCache (req : GenerationRequest) (env : Env) :
    (workerRun req env).1.head? = some Act.clearCache := by
  unfold workerRun
  by_cases h0 : env.cancelAt 0 = true
  · rw [if_pos h0]
    rfl
  · rw [if_neg h0]
    by_cases hld : env.loadOk = false
    · rw [if_pos hld]
      rfl
    · rw [if_neg hld]
      by_cases h1 : env.cancelAt 1 = true
      · rw [if_pos h1]
        rfl
      · rw [if_neg h1]
        by_cases hsrc : srcCheckFails req env
        · rw [if_pos hsrc]
          rfl
        · rw [if_neg hsrc]
          by_cases h2 : env.cancelAt 2 = true
          · rw [if_pos h2]
            rfl
          · rw [if_neg h2]
            rfl

/-- When the setup phase completes (no early exception before the `try`
block), the worker run always ends with the `finally` cache clear of lines
570-572, whatever the outcome of the generation phase. -/
theorem workerRun_getLast_clearCache (req : GenerationRequest) (env : Env)
    (h0 : env.cancelAt 0 = false) (hld : env.loadOk = true)
    (h1 : env.cancelAt 1 = false) (hsrc : ¬ srcCheckFails req env)
    (h2 : env.cancelAt 2 = false) :
    (workerRun req env).1.getLast? = some Act.clearCache := by
  unfold workerRun
  rw [if_neg (by simp [h0]), if_neg (by simp [hld]), if_neg (by simp [h1]),
    if_neg hsrc, if_neg (by simp [h2])]
  dsimp only
  rw [List.getLast?_append_cons]
  rfl

/-! ### Helper lemmas about audio post-processing -/

theorem le_foldr_max : ∀ (l : List ℚ), ∀ x ∈ l, x ≤ l.foldr max 0
  | [] => by
    intro x hx
    cases hx
  | a :: t => by
    intro x hx
    rcases List.mem_cons.1 hx with rfl | hx'
    · exact le_max_left _ _
    · exact le_trans (le_foldr_max t x hx') (le_max_right _ _)

theorem foldr_max_nonneg (l : List ℚ) : 0 ≤ l.foldr max 0 := by
  induction l with
  | nil => exact le_refl 0
  | cons a t ih => exact le_trans ih (le_max_right _ _)

theorem peak_nonneg (l : List ℚ) : 0 ≤ peak l :=
  foldr_max_nonneg _

/-- Every sample is bounded by the buffer's peak. -/
theorem abs_le_peak (l : List ℚ) : ∀ x ∈ l, |x| ≤ peak l := by
  intro x hx
  exact le_foldr_max _ _ (List.mem_map_of_mem _ hx)

theorem foldr_max_mul (k : ℚ) (hk : 0 ≤ k) :
    ∀ l : List ℚ, (l.map (fun x => x * k)).foldr max 0 = l.foldr max 0 * k
  | [] => by simp
  | a :: t => by
    simp only [List.map_cons, List.foldr_cons]
    rw [foldr_max_mul k hk t, max_mul_of_nonneg _ _ hk]

/-- A silent buffer passes through normalization unchanged. -/
theorem normalizeAudio_silent (l : List ℚ) (h : peak l = 0) :
    normalizeAudio l = l := by
  unfold normalizeAudio
  rw [if_neg]
  rw [h]
  exact lt_irrefl 0

theorem peak_map_norm (l : List ℚ) (m : ℚ) (hm : 0 < m) :
    peak (l.map (fun x => x / m * (95/100))) = peak l * (95/100 / m) := by
  have hk : (0 : ℚ) ≤ 95/100 / m := div_nonneg (by norm_num) (le_of_lt hm)
  have habs : (fun x : ℚ => |x|) ∘ (fun x => x / m * (95/100)) =
      (fun y => y * (95/100 / m)) ∘ (fun x : ℚ => |x|) := by
    funext x
    simp only [Function.comp]
    rw [abs_mul, abs_div, abs_of_pos hm,
      abs_of_nonneg (by norm_num : (0:ℚ) ≤ 95/100)]
    ring
  unfold peak
  rw [List.map_map, habs, ← List.map_map, foldr_max_mul _ hk]

/-- When the buffer's peak is positive, the normalized buffer has peak
exactly 0.95. -/
theorem peak_normalize (l : List ℚ) (h : 0 < peak l) :
    peak (normalizeAudio l) = 95/100 := by
  have hna : normalizeAudio l = l.map (fun x => x / peak l * (95/100)) := by
    unfold normalizeAudio
    rw [if_pos h]
  rw [hna, peak_map_norm l (peak l) h, mul_comm, div_mul_cancel₀ _ (ne_of_gt h)]

/-- Every sample of a normalized buffer is at most 0.95 in magnitude. -/
theorem normalize_abs_le (l : List ℚ) : ∀ x ∈ normalizeAudio l, |x| ≤ 95/100 := by
  intro x hx
  unfold normalizeAudio at hx
  by_cases h : 0 < peak l
  · rw [if_pos h] at hx
    obtain ⟨y, hy, rfl⟩ := List.mem_map.1 hx
    have h1 : |y| ≤ peak l := abs_le_peak l y hy
    rw [abs_mul, abs_div, abs_of_pos h,
      abs_of_nonneg (by norm_num : (0:ℚ) ≤ 95/100)]
    have h2 : |y| / peak l ≤ 1 := (div_le_one h).2 h1
    nlinarith [abs_nonneg y]
  · rw [if_neg h] at hx
    have h0 : peak l = 0 := le_antisymm (not_lt.1 h) (peak_nonneg l)
    have h1 := abs_le_peak l x hx
    rw [h0] at h1
    calc |x| ≤ 0 := h1
    _ ≤ 95/100 := by norm_num

theorem truncTowardZero_bound {z : ℚ} (h : |z| ≤ 32767) :
    -32768 ≤ truncTowardZero z ∧ truncTowardZero z ≤ 32767 := by
  obtain ⟨hl, hr⟩ := abs_le.1 h
  unfold truncTowardZero
  by_cases hz : 0 ≤ z
  · rw [if_pos hz]
    constructor
    · calc (-32768 : Int) ≤ 0 := by norm_num
      _ ≤ ⌊z⌋ := Int.floor_nonneg.2 hz
    · have hc : (⌊z⌋ : ℚ) ≤ 32767 := le_trans (Int.floor_le z) hr
      exact_mod_cast hc
  · rw [if_neg hz]
    constructor
    · have hc : (-32767 : ℚ) ≤ (⌈z⌉ : ℚ) := le_trans hl (Int.le_ceil z)
      have h2 : (-32767 : Int) ≤ ⌈z⌉ := by exact_mod_cast hc
      omega
    · have h2 : ⌈z⌉ ≤ (0 : Int) := Int.ceil_le.mpr (by
        push_cast
        exact le_of_lt (not_le.1 hz))
      omega

theorem toInt16_eq_self {v : Int} (h1 : -32768 ≤ v) (h2 : v ≤ 32767) :
    toInt16 v = v := by
  unfold toInt16
  rw [Int.emod_eq_of_lt (by omega) (by omega)]
  omega

/-- On buffers produced by the normalization step, the int16 conversion is
exactly multiply-by-32767 and truncate toward zero (no wrap occurs). -/
theorem processAudio_eq_trunc (l : List ℚ) :
    processAudio l = (normalizeAudio l).map (fun x => truncTowardZero (x * 32767)) := by
  unfold processAudio quantizeInt16
  apply List.map_congr_left
  intro x hx
  have hb := normalize_abs_le l x hx
  have hz : |x * 32767| ≤ 32767 := by
    rw [abs_mul, show |(32767:ℚ)| = 32767 from by norm_num]
    nlinarith [abs_nonneg x]
  obtain ⟨hlo, hhi⟩ := truncTowardZero_bound hz
  exact toInt16_eq_self hlo hhi

/-! ### Claim theorems -/

/-- C1: For every WebSocket generation session, the progress events the
client observes are monotonically non-decreasing in their progress field, and
the terminal message (complete or error) is always the last message received:
the handler drains every ProgressEvent still queued after the job finishes
before sending the terminal frame, so no progress message is delivered after
or instead of the terminal message. Hypotheses: the drained chunks carry
exactly the worker's published events in order (the FIFO queue contract), and
the external model collaborator reports monotone progress values in [0,1]. -/
theorem c1_progress_monotone_terminal_last
    (req : GenerationRequest) (env : Env)
    (rounds : List (List (ℚ × String)))
    (finalChunk drainChunk : List (ℚ × String)) (terminal : WsMsg)
    (hqueue : rounds.flatten ++ finalChunk ++ drainChunk =
      workerProgressEvents req env)
    (hterm : isTerminalMsg terminal = true)
    (hmono : List.Chain' (· ≤ ·) (env.bridge.map Prod.fst))
    (hbound : ∀ p ∈ env.bridge, 0 ≤ p.1 ∧ p.1 ≤ 1) :
    List.Chain' (· ≤ ·)
      (progressValues (wsSessionMsgs rounds finalChunk drainChunk terminal)) ∧
    (wsSessionMsgs rounds finalChunk drainChunk terminal).getLast? =
      some terminal := by
  constructor
  · rw [progressValues_session _ _ _ _ hterm, hqueue]
    show List.Chain' (· ≤ ·)
      (((workerRun req env).1.filterMap actProgressEvent).map Prod.fst)
    rw [actEvents_fst]
    exact workerVals_chain req env hmono hbound
  · exact wsSessionMsgs_getLast rounds finalChunk drainChunk terminal

/-- Witness for C1: a concrete clean session in which the final drain holds
the whole worker event stream and the terminal frame is an error frame. -/
theorem c1_witness :
    (([] : List (List (ℚ × String))).flatten ++
        workerProgressEvents defaultRequest envClean ++ [] =
      workerProgressEvents defaultRequest envClean) ∧
    isTerminalMsg (WsMsg.error "boom") = true ∧
    (List.Chain' (· ≤ ·) (progressValues
      (wsSessionMsgs [] (workerProgressEvents defaultRequest envClean) []
        (WsMsg.error "boom"))) ∧
    (wsSessionMsgs [] (workerProgressEvents defaultRequest envClean) []
      (WsMsg.error "boom")).getLast? = some (WsMsg.error "boom")) := by
  refine ⟨by simp, rfl, ?_⟩
  exact c1_progress_monotone_terminal_last defaultRequest envClean []
    (workerProgressEvents defaultRequest envClean) [] (WsMsg.error "boom")
    (by simp) rfl (by simp [envClean]) (by simp [envClean])

/-- C2: Once the per-session cancellation token is set, every subsequent
checkpoint inside the compute worker raises the cancellation condition — any
checkpoint executed at or after the set point observes the set flag and the
run ends in `GenerationCancelledError` — and a job cancelled by a client
disconnect is reported neither as success nor as error: the disconnect
handler sets the token and sends no frame, and a `GenerationCancelledError`
surfacing in the session handler produces no outbound frame. -/
theorem c2_cancellation (req : GenerationRequest) (env : Env) (t t' : Nat)
    (hmono : cancelMonotone env.cancelAt) (hset : env.cancelAt t = true)
    (hle : t ≤ t') (hmem : Act.checkpoint t' ∈ (workerRun req env).1) :
    env.cancelAt t' = true ∧
    (workerRun req env).2 = Except.error WErr.cancelled ∧
    wsExceptionHandler SessionExc.disconnect = (true, []) ∧
    wsExceptionHandler SessionExc.cancelledExc = (false, []) := by
  have hc : env.cancelAt t' = true := hmono t t' hle hset
  exact ⟨hc, workerRun_checkpoint_mem req env t' hmem hc, rfl, rfl⟩

/-- Witness for C2: a token set from checkpoint 1 onward; checkpoint 1
executes and the run is cancelled. -/
theorem c2_witness :
    cancelMonotone envLateCancel.cancelAt ∧
    envLateCancel.cancelAt 1 = true ∧
    Act.checkpoint 1 ∈ (workerRun defaultRequest envLateCancel).1 ∧
    (workerRun defaultRequest envLateCancel).2 = Except.error WErr.cancelled := by
  have hmono : cancelMonotone envLateCancel.cancelAt := by
    intro i j hij hi
    simp only [envLateCancel, envClean] at hi ⊢
    simp only [decide_eq_true_eq] at hi ⊢
    omega
  have hmem : Act.checkpoint 1 ∈ (workerRun defaultRequest envLateCancel).1 := by
    decide
  exact ⟨hmono, rfl, hmem,
    (c2_cancellation defaultRequest envLateCancel 1 1 hmono rfl (le_refl 1)
      hmem).2.1⟩

/-- C3 (counterexample): the claim says accelerator cache cleanup runs on
every exit path, both before the work begins and after the job terminates,
regardless of which exception ends the job. With the cancellation token
already set at entry, the first checkpoint (line 386) raises before the
`try` block is entered, so the run performs exactly one cache clear (the
leading one) and its trace does not end with a cache clear: the `finally`
of lines 570-572 never executes. -/
theorem c3_counterexample :
    (workerRun defaultRequest envStopped).2 = Except.error WErr.cancelled ∧
    (workerRun defaultRequest envStopped).1.count Act.clearCache = 1 ∧
    (workerRun defaultRequest envStopped).1.getLast? ≠ some Act.clearCache := by
  refine ⟨rfl, rfl, ?_⟩
  decide

/-- C3 (amended): the leading cache clear (line 384) runs on every worker
invocation — it is always the first action — and whenever control reaches
the `try` block (no exception during setup: checkpoints 0-2 pass, the
handler loads, the source-file check passes), the trailing cache clear of the
`finally` block runs on every exit of the generation phase — success, model
failure, empty output, post-processing failure, or cancellation at any
checkpoint inside the phase — so it is the last action of the run. Exceptions
raised during setup (before the `try`) exit without the trailing clear. -/
theorem c3_cache_cleanup (req : GenerationRequest) (env : Env) :
    (workerRun req env).1.head? = some Act.clearCache ∧
    (env.cancelAt 0 = false → env.loadOk = true → env.cancelAt 1 = false →
      ¬ srcCheckFails req env → env.cancelAt 2 = false →
      (workerRun req env).1.getLast? = some Act.clearCache) :=
  ⟨workerRun_head_clearCache req env,
   fun h0 hld h1 hsrc h2 =>
     workerRun_getLast_clearCache req env h0 hld h1 hsrc h2⟩

/-- Witness for C3 (amended): in the clean environment the trace both starts
and ends with a cache clear. -/
theorem c3_witness :
    (workerRun defaultRequest envClean).1.head? = some Act.clearCache ∧
    (workerRun defaultRequest envClean).1.getLast? = some Act.clearCache := by
  refine ⟨(c3_cache_cleanup defaultRequest envClean).1, ?_⟩
  exact (c3_cache_cleanup defaultRequest envClean).2 rfl rfl rfl
    (by simp [srcCheckFails, defaultRequest, strTruthy]) rfl

/-- C4 (counterexample): the claim says cover/repaint source-audio problems
and a missing repaint end time fail validation before any job starts on
every job-submission interface. On the HTTP endpoint this is false: a
repaint request with no end time passes HTTP validation and is submitted
(while the WebSocket endpoint rejects it), and a cover request whose source
file does not exist also passes HTTP validation — the job starts, publishes
a progress event, and only then dies inside the worker with
FileNotFoundError. -/
theorem c4_counterexample :
    httpSubmits reqRepaintNoEnd = true ∧
    wsValidate reqRepaintNoEnd (fun _ => true) = some ValErr.repaintNeedsEnd ∧
    httpSubmits reqCoverMissing = true ∧
    (workerRun reqCoverMissing envNoFiles).2 =
      Except.error (WErr.fileNotFound "/missing.wav") ∧
    (workerProgressEvents reqCoverMissing envNoFiles).length = 1 :=
  ⟨rfl, rfl, rfl, rfl, rfl⟩

/-- C4 (amended): on the WebSocket endpoint the claim holds as stated — for
a known model within the duration cap, a cover/repaint request whose source
path is absent (falsy) or whose file does not exist, and a repaint request
lacking an end time, are rejected with a validation error before any job is
submitted. The HTTP endpoint, however, validates only the model id and the
duration cap before submission, so all of these requests are submitted there
(the missing-file case then fails inside the already-running worker, and the
absent-path and missing-end cases are not rejected at all). -/
theorem c4_validation_amended (req : GenerationRequest) (info : ModelInfo)
    (fx : String → Bool) (hreg : registryFind req.model = some info)
    (hdur : req.duration ≤ (info.max_duration : Int)) :
    ((req.task_type = "cover" ∨ req.task_type = "repaint") →
      (strTruthy req.source_audio_path = false ∨ fx (srcPath req) = false) →
      wsSubmits req fx = false) ∧
    (req.task_type = "repaint" → strTruthy req.source_audio_path = true →
      fx (srcPath req) = true → req.repainting_end = none →
      wsValidate req fx = some ValErr.repaintNeedsEnd ∧
      wsSubmits req fx = false) ∧
    httpValidate req = none := by
  have hdur' : ¬ ((info.max_duration : Int) < req.duration) := not_lt.2 hdur
  refine ⟨?_, ?_, ?_⟩
  · intro htask hsrc
    unfold wsSubmits
    have hve : ∃ e, wsValidate req fx = some e := by
      unfold wsValidate
      rw [hreg]
      dsimp only
      rw [if_neg hdur']
      rcases htask with hcov | hrep
      · rw [if_pos hcov]
        by_cases hs2 : strTruthy req.source_audio_path = false
        · rw [if_pos hs2]
          exact ⟨_, rfl⟩
        · rcases hsrc with hs | hs
          · exact absurd hs hs2
          · rw [if_neg hs2, if_pos hs]
            exact ⟨_, rfl⟩
      · have hnc : ¬ (req.task_type = "cover") := by simp [hrep]
        rw [if_neg hnc, if_pos hrep]
        by_cases hs2 : strTruthy req.source_audio_path = false
        · rw [if_pos hs2]
          exact ⟨_, rfl⟩
        · rcases hsrc with hs | hs
          · exact absurd hs hs2
          · rw [if_neg hs2, if_pos hs]
            exact ⟨_, rfl⟩
    obtain ⟨e, he⟩ := hve
    rw [he]
    rfl
  · intro hrep hs hf hend
    have hnc : ¬ (req.task_type = "cover") := by simp [hrep]
    have h1 : wsValidate req fx = some ValErr.repaintNeedsEnd := by
      unfold wsValidate
      rw [hreg]
      dsimp only
      rw [if_neg hdur', if_neg hnc, if_pos hrep, if_neg (by simp [hs]),
        if_neg (by simp [hf]), if_pos hend]
    refine ⟨h1, ?_⟩
    unfold wsSubmits
    rw [h1]
    rfl
  · unfold httpValidate
    rw [hreg]
    dsimp only
    rw [if_neg hdur']

/-- Witness for C4 (amended): the concrete repaint-without-end request is
rejected by the WebSocket endpoint but passes HTTP validation. -/
theorem c4_witness :
    registryFind reqRepaintNoEnd.model = some acestepInfo ∧
    wsValidate reqRepaintNoEnd (fun _ => true) = some ValErr.repaintNeedsEnd ∧
    wsSubmits reqRepaintNoEnd (fun _ => true) = false ∧
    httpValidate reqRepaintNoEnd = none := by
  have h := c4_validation_amended reqRepaintNoEnd acestepInfo (fun _ => true)
    rfl (by decide)
  exact ⟨rfl, (h.2.1 rfl rfl rfl rfl).1, (h.2.1 rfl rfl rfl rfl).2, h.2.2⟩

/-- C5: For a request carrying an explicit seed S, the resolved effective
seed equals S masked to the positive 31-bit range (Python's
`S & 0x7FFFFFFF`, i.e. S mod 2^31), identically across repeated resolutions
and independent of the random draw; for an absent seed, the effective seed
is the `os.urandom(4)` draw masked into the same range, so two resolutions
whose draws differ mod 2^31 yield different effective seeds. -/
theorem c5_seed_resolution (S : Int) (u u' : Nat) :
    resolveSeed (some S) u = maskSeed S ∧
    resolveSeed (some S) u = resolveSeed (some S) u' ∧
    (0 ≤ resolveSeed (some S) u ∧ resolveSeed (some S) u < 2 ^ 31) ∧
    resolveSeed none u = maskSeed (Int.ofNat u) ∧
    (0 ≤ resolveSeed none u ∧ resolveSeed none u < 2 ^ 31) ∧
    ((Int.ofNat u) % 2 ^ 31 ≠ (Int.ofNat u') % 2 ^ 31 →
      resolveSeed none u ≠ resolveSeed none u') := by
  unfold resolveSeed maskSeed
  refine ⟨rfl, rfl, ⟨?_, ?_⟩, rfl, ⟨?_, ?_⟩, ?_⟩
  · exact Int.emod_nonneg S (by norm_num)
  · exact Int.emod_lt_of_pos S (by norm_num)
  · exact Int.emod_nonneg _ (by norm_num)
  · exact Int.emod_lt_of_pos _ (by norm_num)
  · exact fun hne => hne

/-- Witness for C5: an explicit negative seed masks deterministically, and
draws 3 and 2 resolve to different effective seeds. -/
theorem c5_witness :
    resolveSeed (some (-1)) 0 = maskSeed (-1) ∧
    ((Int.ofNat 3) % 2 ^ 31 ≠ (Int.ofNat 2) % 2 ^ 31 ∧
      resolveSeed none 3 ≠ resolveSeed none 2) :=
  ⟨(c5_seed_resolution (-1) 0 0).1,
   by decide,
   (c5_seed_resolution 0 3 2).2.2.2.2.2 (by decide)⟩

/-- C6: For every request (for a known model) whose duration is at most the
model's declared max_duration, duration validation succeeds — HTTP
validation passes entirely, and WebSocket validation never produces the
duration error; for every request whose duration exceeds it, both endpoints
fail with the structured duration error whose rendered detail string cites
the configured maximum, and neither endpoint submits a job. -/
theorem c6_duration_validation (req : GenerationRequest) (info : ModelInfo)
    (fx : String → Bool) (hreg : registryFind req.model = some info) :
    (req.duration ≤ (info.max_duration : Int) →
      httpValidate req = none ∧
      ∀ e, wsValidate req fx = some e → isDurationErr e = false) ∧
    ((info.max_duration : Int) < req.duration →
      httpValidate req =
        some (ValErr.durationExceeded req.model info.max_duration req.duration) ∧
      wsValidate req fx =
        some (ValErr.durationExceeded req.model info.max_duration req.duration) ∧
      httpSubmits req = false ∧ wsSubmits req fx = false ∧
      ∃ pre post,
        (renderDetail
          (ValErr.durationExceeded req.model info.max_duration req.duration)).data =
          pre ++ (toString info.max_duration).data ++ post) := by
  constructor
  · intro hdur
    have hdur' : ¬ ((info.max_duration : Int) < req.duration) := not_lt.2 hdur
    constructor
    · unfold httpValidate
      rw [hreg]
      dsimp only
      rw [if_neg hdur']
    · intro e he
      unfold wsValidate at he
      rw [hreg] at he
      dsimp only at he
      rw [if_neg hdur'] at he
      by_cases hcov : req.task_type = "cover"
      · rw [if_pos hcov] at he
        by_cases h1 : strTruthy req.source_audio_path = false
        · rw [if_pos h1] at he
          injection he with he'
          rw [← he']
          rfl
        · rw [if_neg h1] at he
          by_cases h2 : fx (srcPath req) = false
          · rw [if_pos h2] at he
            injection he with he'
            rw [← he']
            rfl
          · rw [if_neg h2] at he
            simp at he
      · rw [if_neg hcov] at he
        by_cases hrep : req.task_type = "repaint"
        · rw [if_pos hrep] at he
          by_cases h1 : strTruthy req.source_audio_path = false
          · rw [if_pos h1] at he
            injection he with he'
            rw [← he']
            rfl
          · rw [if_neg h1] at he
            by_cases h2 : fx (srcPath req) = false
            · rw [if_pos h2] at he
              injection he with he'
              rw [← he']
              rfl
            · rw [if_neg h2] at he
              by_cases h3 : req.repainting_end = none
              · rw [if_pos h3] at he
                injection he with he'
                rw [← he']
                rfl
              · rw [if_neg h3] at he
                simp at he
        · rw [if_neg hrep] at he
          simp at he
  · intro hdur
    have h1 : httpValidate req =
        some (ValErr.durationExceeded req.model info.max_duration req.duration) := by
      unfold httpValidate
      rw [hreg]
      dsimp only
      rw [if_pos hdur]
    have h2 : wsValidate req fx =
        some (ValErr.durationExceeded req.model info.max_duration req.duration) := by
      unfold wsValidate
      rw [hreg]
      dsimp only
      rw [if_pos hdur]
    refine ⟨h1, h2, ?_, ?_, ?_⟩
    · unfold httpSubmits
      rw [h1]
      rfl
    · unfold wsSubmits
      rw [h2]
      rfl
    · refine ⟨("Max duration for " ++ req.model ++ " is ").data,
        ("s, got " ++ toString req.duration ++ "s").data, ?_⟩
      simp [renderDetail, List.append_assoc]

/-- Witness for C6: duration 300 against the 240 s cap fails both endpoints
with the structured duration error. -/
theorem c6_witness :
    registryFind reqTooLong.model = some acestepInfo ∧
    (acestepInfo.max_duration : Int) < reqTooLong.duration ∧
    httpValidate reqTooLong =
      some (ValErr.durationExceeded reqTooLong.model acestepInfo.max_duration
        reqTooLong.duration) ∧
    wsSubmits reqTooLong (fun _ => true) = false := by
  have h := (c6_duration_validation reqTooLong acestepInfo (fun _ => true)
    rfl).2 (by decide)
  exact ⟨rfl, by decide, h.1, h.2.2.2.1⟩

/-- C7: For every raw audio buffer handed to post-processing: a buffer with
positive peak is scaled so its maximum absolute sample equals 0.95 of full
scale; a silent buffer (peak 0) passes through unchanged; and the result is
quantized to signed 16-bit PCM by multiplying by 32767 and truncating toward
zero (the int16 conversion never wraps on normalized buffers). -/
theorem c7_normalize_quantize (buf : List ℚ) :
    (peak buf = 0 → normalizeAudio buf = buf) ∧
    (0 < peak buf → peak (normalizeAudio buf) = 95/100) ∧
    processAudio buf =
      (normalizeAudio buf).map (fun x => truncTowardZero (x * 32767)) :=
  ⟨normalizeAudio_silent buf, peak_normalize buf, processAudio_eq_trunc buf⟩

/-- Witness for C7: a loud buffer normalizes to peak 0.95; the empty (silent)
buffer passes through unchanged. -/
theorem c7_witness :
    (0 < peak [(1 : ℚ)] ∧ peak (normalizeAudio [(1 : ℚ)]) = 95/100) ∧
    (peak ([] : List ℚ) = 0 ∧ normalizeAudio ([] : List ℚ) = []) := by
  have hp : peak [(1 : ℚ)] = 1 := by
    unfold peak
    simp only [List.map_cons, List.map_nil, List.foldr_cons, List.foldr_nil]
    rw [abs_one, max_eq_left (by norm_num : (0:ℚ) ≤ 1)]
  have h1 : 0 < peak [(1 : ℚ)] := by
    rw [hp]
    norm_num
  exact ⟨⟨h1, (c7_normalize_quantize [(1 : ℚ)]).2.1 h1⟩,
    ⟨rfl, (c7_normalize_quantize ([] : List ℚ)).1 rfl⟩⟩

/-- C8: For every requested batch_size in [1,8] the resolved batch size
equals the requested value; below 1 it clamps to 1; above 8 it clamps to 8. -/
theorem c8_batch_clamp (b : Int) :
    (1 ≤ b → b ≤ 8 → clampBatch b = b) ∧
    (b < 1 → clampBatch b = 1) ∧
    (8 < b → clampBatch b = 8) := by
  unfold clampBatch
  refine ⟨fun h1 h8 => ?_, fun h => ?_, fun h => ?_⟩ <;> omega

/-- Witness for C8 at 5, 0 and 12. -/
theorem c8_witness :
    clampBatch 5 = 5 ∧ clampBatch 0 = 1 ∧ clampBatch 12 = 8 :=
  ⟨(c8_batch_clamp 5).1 (by decide) (by decide),
   (c8_batch_clamp 0).2.1 (by decide),
   (c8_batch_clamp 12).2.2 (by decide)⟩

/-- C9: The resolved inference step count is a total function of
quality_mode with exactly three outcomes: "draft" maps to 4, "quality" maps
to 50, and every other string — "fast" and any unrecognized value included —
maps to 8; an unknown quality tier never causes an error. -/
theorem c9_quality_steps :
    qualitySteps "draft" = 4 ∧ qualitySteps "quality" = 50 ∧
    qualitySteps "fast" = 8 ∧
    ∀ s : String, s ≠ "draft" → s ≠ "quality" → qualitySteps s = 8 := by
  refine ⟨rfl, rfl, rfl, fun s h1 h2 => ?_⟩
  unfold qualitySteps
  rw [if_neg h1, if_neg h2]

/-- Witness for C9 at the unknown tier "ultra". -/
theorem c9_witness : qualitySteps "ultra" = 8 :=
  c9_quality_steps.2.2.2 "ultra" (by decide) (by decide)

/-- C10: Within any single job, every batch entry of the result carries the
same seed — the one effective seed resolved once per job — and the seed
field of the WebSocket complete message equals that shared effective seed. -/
theorem c10_shared_seed (req : GenerationRequest) (env : Env)
    (r0 : GenerationResponse) (rest : List GenerationResponse)
    (h : (workerRun req env).2 = Except.ok (r0 :: rest)) :
    (∀ r ∈ r0 :: rest, r.seed = some (resolveSeed req.seed env.urandom4)) ∧
    msgSeed (mkCompleteMsg r0 rest) = some (resolveSeed req.seed env.urandom4) := by
  have hall := workerRun_ok_seeds req env (r0 :: rest) h
  refine ⟨hall, ?_⟩
  show r0.seed = some (resolveSeed req.seed env.urandom4)
  exact hall r0 (List.mem_cons_self _ _)

/-- Witness for C10: the clean run produces one response whose seed, and the
complete frame's seed, are both the job's effective seed. -/
theorem c10_witness :
    (workerRun defaultRequest envClean).2 = Except.ok [respClean] ∧
    respClean.seed = some (resolveSeed defaultRequest.seed envClean.urandom4) ∧
    msgSeed (mkCompleteMsg respClean []) =
      some (resolveSeed defaultRequest.seed envClean.urandom4) := by
  have h : (workerRun defaultRequest envClean).2 = Except.ok [respClean] := rfl
  have hc := c10_shared_seed defaultRequest envClean respClean [] h
  exact ⟨h, hc.1 respClean (List.mem_cons_self _ _), hc.2⟩

end LoopMaker
